/-
Verification of the 6DOF rigid-body simulator in `jax_mavrik/src/sixdof.py`.

The 21-component kinematic state is embedded as a structure of seven
3-vectors, mirroring the `SixDOFState` NamedTuple and the fixed layout
`[Ve, Xe, Vb, Euler, pqr, ab, dotpqr]` of the flat array that the code
actually integrates.  Array arithmetic (`state + k1/2`, scalar scaling,
`state.at[-6:].set(0)`) becomes componentwise structure arithmetic over ℝ.
`numpy.linalg.inv` on the 3×3 inertia tensor is embedded as the explicit
adjugate-over-determinant formula `inv3` (real division; a singular matrix
yields division by a zero determinant rather than a raised error, matching
`jax.numpy`'s non-raising behaviour).
-/
import Mathlib

noncomputable section

/-- 3-vector of reals, modelling a length-3 array slice of the state. -/
@[ext]
structure Vec3 where
  x : ℝ
  y : ℝ
  z : ℝ

instance : Zero Vec3 := ⟨⟨0, 0, 0⟩⟩

instance : Add Vec3 := ⟨fun a b => ⟨a.x + b.x, a.y + b.y, a.z + b.z⟩⟩

instance : Sub Vec3 := ⟨fun a b => ⟨a.x - b.x, a.y - b.y, a.z - b.z⟩⟩

instance : SMul ℝ Vec3 := ⟨fun c a => ⟨c * a.x, c * a.y, c * a.z⟩⟩

instance : HDiv Vec3 ℝ Vec3 := ⟨fun a c => ⟨a.x / c, a.y / c, a.z / c⟩⟩

@[simp] theorem Vec3.zero_x : (0 : Vec3).x = 0 := rfl

@[simp] theorem Vec3.zero_y : (0 : Vec3).y = 0 := rfl

@[simp] theorem Vec3.zero_z : (0 : Vec3).z = 0 := rfl

@[simp] theorem Vec3.add_x (a b : Vec3) : (a + b).x = a.x + b.x := rfl

@[simp] theorem Vec3.add_y (a b : Vec3) : (a + b).y = a.y + b.y := rfl

@[simp] theorem Vec3.add_z (a b : Vec3) : (a + b).z = a.z + b.z := rfl

@[simp] theorem Vec3.sub_x (a b : Vec3) : (a - b).x = a.x - b.x := rfl

@[simp] theorem Vec3.sub_y (a b : Vec3) : (a - b).y = a.y - b.y := rfl

@[simp] theorem Vec3.sub_z (a b : Vec3) : (a - b).z = a.z - b.z := rfl

@[simp] theorem Vec3.smul_x (c : ℝ) (a : Vec3) : (c • a).x = c * a.x := rfl

@[simp] theorem Vec3.smul_y (c : ℝ) (a : Vec3) : (c • a).y = c * a.y := rfl

@[simp] theorem Vec3.smul_z (c : ℝ) (a : Vec3) : (c • a).z = c * a.z := rfl

@[simp] theorem Vec3.div_x (a : Vec3) (c : ℝ) : (a / c).x = a.x / c := rfl

@[simp] theorem Vec3.div_y (a : Vec3) (c : ℝ) : (a / c).y = a.y / c := rfl

@[simp] theorem Vec3.div_z (a : Vec3) (c : ℝ) : (a / c).z = a.z / c := rfl

/-- 3×3 real matrix with explicit entries (row-major). -/
@[ext]
structure Mat3 where
  m00 : ℝ
  m01 : ℝ
  m02 : ℝ
  m10 : ℝ
  m11 : ℝ
  m12 : ℝ
  m20 : ℝ
  m21 : ℝ
  m22 : ℝ

/-- Matrix transpose, modelling the `.T` taken on the DCM. -/
def transpose3 (A : Mat3) : Mat3 :=
  ⟨A.m00, A.m10, A.m20, A.m01, A.m11, A.m21, A.m02, A.m12, A.m22⟩

/-- Matrix-vector product, modelling the `@` products in the evaluator. -/
def mulVec3 (A : Mat3) (v : Vec3) : Vec3 :=
  ⟨A.m00 * v.x + A.m01 * v.y + A.m02 * v.z,
   A.m10 * v.x + A.m11 * v.y + A.m12 * v.z,
   A.m20 * v.x + A.m21 * v.y + A.m22 * v.z⟩

/-- Determinant of a 3×3 matrix (cofactor expansion along the first row). -/
def det3 (A : Mat3) : ℝ :=
  A.m00 * (A.m11 * A.m22 - A.m12 * A.m21)
    - A.m01 * (A.m10 * A.m22 - A.m12 * A.m20)
    + A.m02 * (A.m10 * A.m21 - A.m11 * A.m20)

/-- 3×3 matrix inverse by adjugate over determinant, modelling
`linalg.inv` as invoked per call inside `_six_dof_dynamics`
(sixdof.py line 82).  Real division by a zero determinant does not raise. -/
def inv3 (A : Mat3) : Mat3 :=
  let d := det3 A
  ⟨(A.m11 * A.m22 - A.m12 * A.m21) / d,
   (A.m02 * A.m21 - A.m01 * A.m22) / d,
   (A.m01 * A.m12 - A.m02 * A.m11) / d,
   (A.m12 * A.m20 - A.m10 * A.m22) / d,
   (A.m00 * A.m22 - A.m02 * A.m20) / d,
   (A.m02 * A.m10 - A.m00 * A.m12) / d,
   (A.m10 * A.m21 - A.m11 * A.m20) / d,
   (A.m01 * A.m20 - A.m00 * A.m21) / d,
   (A.m00 * A.m11 - A.m01 * A.m10) / d⟩

/-- Cross product of 3-vectors, modelling `np.cross` / `jnp.cross`. -/
def cross3 (a b : Vec3) : Vec3 :=
  ⟨a.y * b.z - a.z * b.y, a.z * b.x - a.x * b.z, a.x * b.y - a.y * b.x⟩

/-- Modelled from the spec: `euler_to_dcm` is defined in
`jax_mavrik/src/utils/mat_tools.py`, which is not part of the sources at
hand; the spec prescribes the standard 3-2-1 Euler-sequence direction
cosine matrix from `[roll phi, pitch theta, yaw psi]` (NED-to-body), with
the identity matrix at zero attitude. -/
def euler_to_dcm (phi theta psi : ℝ) : Mat3 :=
  ⟨Real.cos theta * Real.cos psi,
   Real.cos theta * Real.sin psi,
   -Real.sin theta,
   Real.sin phi * Real.sin theta * Real.cos psi - Real.cos phi * Real.sin psi,
   Real.sin phi * Real.sin theta * Real.sin psi + Real.cos phi * Real.cos psi,
   Real.sin phi * Real.cos theta,
   Real.cos phi * Real.sin theta * Real.cos psi + Real.sin phi * Real.sin psi,
   Real.cos phi * Real.sin theta * Real.sin psi - Real.sin phi * Real.cos psi,
   Real.cos phi * Real.cos theta⟩

/-- `RigidBody` NamedTuple (sixdof.py lines 14-16): mass and inertia. -/
structure RigidBody where
  mass : ℝ
  inertia : Mat3

/-- The 21-component kinematic state vector in its fixed layout
`[Ve, Xe, Vb, Euler, pqr, ab, dotpqr]` (sixdof.py lines 18-25 and the
concatenation at lines 113-120): seven consecutive 3-component slices. -/
@[ext]
structure SixDOFState where
  Ve : Vec3
  Xe : Vec3
  Vb : Vec3
  Euler : Vec3
  pqr : Vec3
  ab : Vec3
  dotpqr : Vec3

instance : Zero SixDOFState := ⟨⟨0, 0, 0, 0, 0, 0, 0⟩⟩

instance : Add SixDOFState :=
  ⟨fun a b => ⟨a.Ve + b.Ve, a.Xe + b.Xe, a.Vb + b.Vb, a.Euler + b.Euler,
               a.pqr + b.pqr, a.ab + b.ab, a.dotpqr + b.dotpqr⟩⟩

instance : SMul ℝ SixDOFState :=
  ⟨fun c a => ⟨c • a.Ve, c • a.Xe, c • a.Vb, c • a.Euler,
               c • a.pqr, c • a.ab, c • a.dotpqr⟩⟩

instance : HDiv SixDOFState ℝ SixDOFState :=
  ⟨fun a c => ⟨a.Ve / c, a.Xe / c, a.Vb / c, a.Euler / c,
               a.pqr / c, a.ab / c, a.dotpqr / c⟩⟩

@[simp] theorem SixDOFState.zero_Ve : (0 : SixDOFState).Ve = 0 := rfl

@[simp] theorem SixDOFState.zero_Xe : (0 : SixDOFState).Xe = 0 := rfl

@[simp] theorem SixDOFState.zero_Vb : (0 : SixDOFState).Vb = 0 := rfl

@[simp] theorem SixDOFState.zero_Euler : (0 : SixDOFState).Euler = 0 := rfl

@[simp] theorem SixDOFState.zero_pqr : (0 : SixDOFState).pqr = 0 := rfl

@[simp] theorem SixDOFState.zero_ab : (0 : SixDOFState).ab = 0 := rfl

@[simp] theorem SixDOFState.zero_dotpqr : (0 : SixDOFState).dotpqr = 0 := rfl

@[simp] theorem SixDOFState.add_Ve (a b : SixDOFState) : (a + b).Ve = a.Ve + b.Ve := rfl

@[simp] theorem SixDOFState.add_Xe (a b : SixDOFState) : (a + b).Xe = a.Xe + b.Xe := rfl

@[simp] theorem SixDOFState.add_Vb (a b : SixDOFState) : (a + b).Vb = a.Vb + b.Vb := rfl

@[simp] theorem SixDOFState.add_Euler (a b : SixDOFState) : (a + b).Euler = a.Euler + b.Euler := rfl

@[simp] theorem SixDOFState.add_pqr (a b : SixDOFState) : (a + b).pqr = a.pqr + b.pqr := rfl

@[simp] theorem SixDOFState.add_ab (a b : SixDOFState) : (a + b).ab = a.ab + b.ab := rfl

@[simp] theorem SixDOFState.add_dotpqr (a b : SixDOFState) : (a + b).dotpqr = a.dotpqr + b.dotpqr := rfl

@[simp] theorem SixDOFState.smul_Ve (c : ℝ) (a : SixDOFState) : (c • a).Ve = c • a.Ve := rfl

@[simp] theorem SixDOFState.smul_Xe (c : ℝ) (a : SixDOFState) : (c • a).Xe = c • a.Xe := rfl

@[simp] theorem SixDOFState.smul_Vb (c : ℝ) (a : SixDOFState) : (c • a).Vb = c • a.Vb := rfl

@[simp] theorem SixDOFState.smul_Euler (c : ℝ) (a : SixDOFState) : (c • a).Euler = c • a.Euler := rfl

@[simp] theorem SixDOFState.smul_pqr (c : ℝ) (a : SixDOFState) : (c • a).pqr = c • a.pqr := rfl

@[simp] theorem SixDOFState.smul_ab (c : ℝ) (a : SixDOFState) : (c • a).ab = c • a.ab := rfl

@[simp] theorem SixDOFState.smul_dotpqr (c : ℝ) (a : SixDOFState) : (c • a).dotpqr = c • a.dotpqr := rfl

@[simp] theorem SixDOFState.div_Ve (a : SixDOFState) (c : ℝ) : (a / c).Ve = a.Ve / c := rfl

@[simp] theorem SixDOFState.div_Xe (a : SixDOFState) (c : ℝ) : (a / c).Xe = a.Xe / c := rfl

@[simp] theorem SixDOFState.div_Vb (a : SixDOFState) (c : ℝ) : (a / c).Vb = a.Vb / c := rfl

@[simp] theorem SixDOFState.div_Euler (a : SixDOFState) (c : ℝ) : (a / c).Euler = a.Euler / c := rfl

@[simp] theorem SixDOFState.div_pqr (a : SixDOFState) (c : ℝ) : (a / c).pqr = a.pqr / c := rfl

@[simp] theorem SixDOFState.div_ab (a : SixDOFState) (c : ℝ) : (a / c).ab = a.ab / c := rfl

@[simp] theorem SixDOFState.div_dotpqr (a : SixDOFState) (c : ℝ) : (a / c).dotpqr = a.dotpqr / c := rfl

/-- `SixDOFDynamics.__init__` (sixdof.py lines 34-45): stores the rigid
body, method string and fixed step size.  The body performs only field
assignments — no validation of the method string, the mass, the step size
or the invertibility of the inertia tensor — so, embedded with an
`Except` codomain to make construction-time failure expressible, it
always returns `Except.ok`. -/
structure SixDOFDynamics where
  rigid_body : RigidBody
  method : String
  fixed_step_size : ℝ

/-- Constructor of `SixDOFDynamics` (sixdof.py lines 34-45), with an
`Except String` codomain recording that the source raises nothing. -/
def SixDOFDynamics.init (rigid_body : RigidBody) (method : String)
    (fixed_step_size : ℝ) : Except String SixDOFDynamics :=
  Except.ok ⟨rigid_body, method, fixed_step_size⟩

/-- `_six_dof_dynamics` (sixdof.py lines 47-93): the equations-of-motion
evaluator mapping (state, force, moment) to the 21-component derivative.
The destructuring at line 64 reads only the slices `Vb = [u,v,w]`,
`Euler = [phi,theta,psi]`, `pqr = [p,q,r]` of the state. -/
def six_dof_dynamics (rb : RigidBody) (state : SixDOFState)
    (Fxyz Mxyz : Vec3) : SixDOFState :=
  let u := state.Vb.x
  let v := state.Vb.y
  let w := state.Vb.z
  let phi := state.Euler.x
  let theta := state.Euler.y
  let psi := state.Euler.z
  let p := state.pqr.x
  let q := state.pqr.y
  let r := state.pqr.z
  let L_EB := transpose3 (euler_to_dcm phi theta psi)
  let dXe := mulVec3 L_EB ⟨u, v, w⟩
  let du := Fxyz.x / rb.mass + r * v - q * w
  let dv := Fxyz.y / rb.mass + p * w - r * u
  let dw := Fxyz.z / rb.mass + q * u - p * v
  let dVe := mulVec3 L_EB ⟨du, dv, dw⟩
  let I_inv := inv3 rb.inertia
  let dpqr := mulVec3 I_inv (Mxyz - cross3 ⟨p, q, r⟩ (mulVec3 rb.inertia ⟨p, q, r⟩))
  let dphi := p + q * Real.sin phi * Real.tan theta + r * Real.cos phi * Real.tan theta
  let dtheta := q * Real.cos phi - r * Real.sin phi
  let epsilon : ℝ := 1e-6
  let dpsi := (q * Real.sin phi + r * Real.cos phi) / (Real.cos theta + epsilon)
  ⟨dVe, dXe, ⟨du, dv, dw⟩, ⟨dphi, dtheta, dpsi⟩, dpqr, ⟨du, dv, dw⟩, dpqr⟩

/-- `state.at[-6:].set(jnp.zeros(6))` (sixdof.py lines 128, 143, 156):
reset the last 6 components — the `ab` and `dotpqr` slices — to zero. -/
def zero_last6 (s : SixDOFState) : SixDOFState :=
  { s with ab := 0, dotpqr := 0 }

/-- Input of the first evaluator call inside `rk4_step` (sixdof.py
line 131): the working state after the once-per-step reset at line 128. -/
def rk4_stage1_input (dyn : SixDOFDynamics) (state : SixDOFState)
    (forces moments : Vec3) : SixDOFState :=
  zero_last6 state

/-- `k1` of `rk4_step` (sixdof.py line 131). -/
def rk4_k1 (dyn : SixDOFDynamics) (state : SixDOFState)
    (forces moments : Vec3) : SixDOFState :=
  dyn.fixed_step_size • six_dof_dynamics dyn.rigid_body
    (rk4_stage1_input dyn state forces moments) forces moments

/-- Input of the second evaluator call inside `rk4_step` (sixdof.py
line 132): `state + k1/2` for the zeroed working state. -/
def rk4_stage2_input (dyn : SixDOFDynamics) (state : SixDOFState)
    (forces moments : Vec3) : SixDOFState :=
  rk4_stage1_input dyn state forces moments + rk4_k1 dyn state forces moments / (2 : ℝ)

/-- `k2` of `rk4_step` (sixdof.py line 132). -/
def rk4_k2 (dyn : SixDOFDynamics) (state : SixDOFState)
    (forces moments : Vec3) : SixDOFState :=
  dyn.fixed_step_size • six_dof_dynamics dyn.rigid_body
    (rk4_stage2_input dyn state forces moments) forces moments

/-- Input of the third evaluator call inside `rk4_step` (sixdof.py
line 133): `state + k2/2` for the zeroed working state. -/
def rk4_stage3_input (dyn : SixDOFDynamics) (state : SixDOFState)
    (forces moments : Vec3) : SixDOFState :=
  rk4_stage1_input dyn state forces moments + rk4_k2 dyn state forces moments / (2 : ℝ)

/-- `k3` of `rk4_step` (sixdof.py line 133). -/
def rk4_k3 (dyn : SixDOFDynamics) (state : SixDOFState)
    (forces moments : Vec3) : SixDOFState :=
  dyn.fixed_step_size • six_dof_dynamics dyn.rigid_body
    (rk4_stage3_input dyn state forces moments) forces moments

/-- Input of the fourth evaluator call inside `rk4_step` (sixdof.py
line 134): `state + k3` for the zeroed working state. -/
def rk4_stage4_input (dyn : SixDOFDynamics) (state : SixDOFState)
    (forces moments : Vec3) : SixDOFState :=
  rk4_stage1_input dyn state forces moments + rk4_k3 dyn state forces moments

/-- `k4` of `rk4_step` (sixdof.py line 134). -/
def rk4_k4 (dyn : SixDOFDynamics) (state : SixDOFState)
    (forces moments : Vec3) : SixDOFState :=
  dyn.fixed_step_size • six_dof_dynamics dyn.rigid_body
    (rk4_stage4_input dyn state forces moments) forces moments

/-- `rk4_step` (sixdof.py lines 127-136): zero the last 6 components of
the carried state once, evaluate the four RK4 stages, and return
`state + (k1 + 2*k2 + 2*k3 + k4)/6` for the zeroed working state. -/
def rk4_step (dyn : SixDOFDynamics) (state : SixDOFState)
    (forces moments : Vec3) : SixDOFState :=
  rk4_stage1_input dyn state forces moments +
    (rk4_k1 dyn state forces moments + (2 : ℝ) • rk4_k2 dyn state forces moments +
      (2 : ℝ) • rk4_k3 dyn state forces moments + rk4_k4 dyn state forces moments) / (6 : ℝ)

/-- `euler_step` (sixdof.py lines 142-147): zero the last 6 components,
then advance by a single explicit-Euler increment. -/
def euler_step (dyn : SixDOFDynamics) (state : SixDOFState)
    (forces moments : Vec3) : SixDOFState :=
  let z := zero_last6 state
  z + dyn.fixed_step_size • six_dof_dynamics dyn.rigid_body z forces moments

/-- `dynamics` closure handed to the diffrax solver (sixdof.py lines
155-158): zero the last 6 components of the solver state, then evaluate
the equations of motion. -/
def diffrax_dynamics (dyn : SixDOFDynamics) (t : ℝ) (state : SixDOFState)
    (args : Vec3 × Vec3) : SixDOFState :=
  six_dof_dynamics dyn.rigid_body (zero_last6 state) args.1 args.2

/-- Python `str.lower` on the ASCII method names (`self.method.lower()`,
sixdof.py lines 126, 141, 151). -/
def char_lower (c : Char) : Char :=
  if 65 ≤ c.toNat ∧ c.toNat ≤ 90 then Char.ofNat (c.toNat + 32) else c

/-- Python `str.lower` for a whole string, used by the method dispatch. -/
def py_lower (s : String) : String :=
  ⟨s.data.map char_lower⟩

/-- `jnp.ceil((t1 - t0) / self.fixed_step_size).astype(int)`
(sixdof.py line 124). -/
def num_points (t0 t1 h : ℝ) : ℤ :=
  ⌈(t1 - t0) / h⌉

/-- `jnp.linspace(t0, t1, num_points)` (sixdof.py line 125):
`num_points` evenly spaced samples from `t0` to `t1` inclusive. -/
def linspace (t0 t1 : ℝ) (n : ℕ) : List ℝ :=
  (List.range n).map fun i : ℕ => t0 + (t1 - t0) * (i : ℝ) / ((n : ℝ) - 1)

/-- `lax.scan` over `n` iterations of a step function returning
`(new_state, new_state)` (sixdof.py lines 139, 150): the collected
output lists the state after 1, 2, ..., n steps — the initial carry is
not included. -/
def scan_steps (step : SixDOFState → SixDOFState) (s0 : SixDOFState) : ℕ → List SixDOFState
  | 0 => []
  | n + 1 => step s0 :: scan_steps step (step s0) n

/-- Result of `run_simulation`: the time grid and the state history. -/
structure SimResult where
  time : List ℝ
  states : List SixDOFState

/-- `run_simulation` (sixdof.py lines 97-166).  The initial vector is the
five integrated slices of the given state followed by six zeros
(lines 113-120).  Before the method dispatch, line 124 computes
`num_points = ceil((t1 - t0)/h)` and line 125 calls
`jnp.linspace(t0, t1, num_points)`, which raises `ValueError` whenever
the sample count is negative — so a negative count errors out for every
method, embedded as the first `Except.error` branch.  The dispatch then
compares `self.method.lower()` against "rk4", "euler" and "diffrax"; any
other string leaves the local variable `states` unassigned, so the
`return` at line 166 raises `UnboundLocalError`, embedded as the last
`Except.error` branch.  The external diffrax solve (lines 160-164) is
not part of this repository and is taken as the parameter `dsolve`. -/
def run_simulation
    (dsolve : ℝ → ℝ → ℝ → SixDOFState → Vec3 × Vec3 → List ℝ → List SixDOFState)
    (dyn : SixDOFDynamics) (initial_state : SixDOFState)
    (forces moments : Vec3) (t0 t1 : ℝ) : Except String SimResult :=
  let s0 : SixDOFState := { initial_state with ab := 0, dotpqr := 0 }
  if num_points t0 t1 dyn.fixed_step_size < 0 then
    Except.error "ValueError: Number of samples must be non-negative"
  else
    let n : ℕ := (num_points t0 t1 dyn.fixed_step_size).toNat
    let times := linspace t0 t1 n
    if py_lower dyn.method = "rk4" then
      Except.ok ⟨times, scan_steps (fun s => rk4_step dyn s forces moments) s0 n⟩
    else if py_lower dyn.method = "euler" then
      Except.ok ⟨times, scan_steps (fun s => euler_step dyn s forces moments) s0 n⟩
    else if py_lower dyn.method = "diffrax" then
      Except.ok ⟨times, dsolve t0 t1 dyn.fixed_step_size s0 (forces, moments) times⟩
    else
      Except.error "UnboundLocalError: local variable states referenced before assignment"

/-- The RK4 update exactly as claim C1 words it, for refinement
comparison with `rk4_step`: every stage is evaluated from the raw input
state and the increment is added to the raw input state, with no mention
of the reset of the last 6 components. -/
def rk4_claim_formula (dyn : SixDOFDynamics) (state : SixDOFState)
    (forces moments : Vec3) : SixDOFState :=
  let h := dyn.fixed_step_size
  let k1 := h • six_dof_dynamics dyn.rigid_body state forces moments
  let k2 := h • six_dof_dynamics dyn.rigid_body (state + k1 / (2 : ℝ)) forces moments
  let k3 := h • six_dof_dynamics dyn.rigid_body (state + k2 / (2 : ℝ)) forces moments
  let k4 := h • six_dof_dynamics dyn.rigid_body (state + k3) forces moments
  state + (k1 + (2 : ℝ) • k2 + (2 : ℝ) • k3 + k4) / (6 : ℝ)

@[simp] theorem zero_last6_Ve (s : SixDOFState) : (zero_last6 s).Ve = s.Ve := rfl

@[simp] theorem zero_last6_Xe (s : SixDOFState) : (zero_last6 s).Xe = s.Xe := rfl

@[simp] theorem zero_last6_Vb (s : SixDOFState) : (zero_last6 s).Vb = s.Vb := rfl

@[simp] theorem zero_last6_Euler (s : SixDOFState) : (zero_last6 s).Euler = s.Euler := rfl

@[simp] theorem zero_last6_pqr (s : SixDOFState) : (zero_last6 s).pqr = s.pqr := rfl

@[simp] theorem zero_last6_ab (s : SixDOFState) : (zero_last6 s).ab = 0 := rfl

@[simp] theorem zero_last6_dotpqr (s : SixDOFState) : (zero_last6 s).dotpqr = 0 := rfl

theorem state_smul_zero (c : ℝ) : c • (0 : SixDOFState) = 0 := by
  ext <;> simp

theorem state_zero_div (c : ℝ) : (0 : SixDOFState) / c = 0 := by
  ext <;> simp

theorem state_add_zero (s : SixDOFState) : s + 0 = s := by
  ext <;> simp

/-- The evaluator only reads the `Vb`, `Euler` and `pqr` slices of the
state (the destructuring at sixdof.py line 64 discards all other
components), so two states agreeing there produce the same derivative. -/
theorem six_dof_dynamics_congr (rb : RigidBody) (F M : Vec3)
    (s t : SixDOFState) (hVb : s.Vb = t.Vb) (hE : s.Euler = t.Euler)
    (hpqr : s.pqr = t.pqr) :
    six_dof_dynamics rb s F M = six_dof_dynamics rb t F M := by
  simp only [six_dof_dynamics, hVb, hE, hpqr]

/-- Zeroing the last 6 components does not change the derivative. -/
theorem six_dof_dynamics_zero_last6 (rb : RigidBody) (F M : Vec3)
    (s : SixDOFState) :
    six_dof_dynamics rb (zero_last6 s) F M = six_dof_dynamics rb s F M :=
  six_dof_dynamics_congr rb F M _ _ rfl rfl rfl

/-- At rest (zero body velocity, zero angular rate) with zero force and
moment, the derivative vanishes for every attitude and every inertia. -/
theorem rest_derivative_zero (rb : RigidBody) (s : SixDOFState)
    (hVb : s.Vb = 0) (hpqr : s.pqr = 0) :
    six_dof_dynamics rb s 0 0 = 0 := by
  have hx : s.Vb.x = 0 := by rw [hVb]; rfl
  have hy : s.Vb.y = 0 := by rw [hVb]; rfl
  have hz : s.Vb.z = 0 := by rw [hVb]; rfl
  have hp : s.pqr.x = 0 := by rw [hpqr]; rfl
  have hq : s.pqr.y = 0 := by rw [hpqr]; rfl
  have hr : s.pqr.z = 0 := by rw [hpqr]; rfl
  ext <;>
    simp [six_dof_dynamics, euler_to_dcm, transpose3, mulVec3, cross3, inv3, det3,
      hx, hy, hz, hp, hq, hr]

/-- C10: the equations-of-motion evaluator reads only the `Vb`, `Euler`
and `pqr` slices of the 21-component state besides the force and moment
inputs: two states agreeing on those nine components yield identical
21-component derivative vectors, so the `Ve`, `Xe`, `ab` and `dotpqr`
components never influence the output. -/
theorem evaluator_reads_only_vb_euler_pqr (rb : RigidBody) (F M : Vec3)
    (s t : SixDOFState) (hVb : s.Vb = t.Vb) (hE : s.Euler = t.Euler)
    (hpqr : s.pqr = t.pqr) :
    six_dof_dynamics rb s F M = six_dof_dynamics rb t F M :=
  six_dof_dynamics_congr rb F M s t hVb hE hpqr

/-- Witness for C10 at a concrete pair of states differing in their
`Ve`, `Xe`, `ab` and `dotpqr` slices only. -/
theorem evaluator_reads_only_vb_euler_pqr_witness :
    (⟨⟨1, 2, 3⟩, ⟨4, 5, 6⟩, ⟨7, 8, 9⟩, ⟨1, 1, 1⟩, ⟨2, 2, 2⟩, ⟨3, 3, 3⟩, ⟨4, 4, 4⟩⟩ :
        SixDOFState).Vb = (⟨0, 0, ⟨7, 8, 9⟩, ⟨1, 1, 1⟩, ⟨2, 2, 2⟩, 0, 0⟩ : SixDOFState).Vb ∧
    six_dof_dynamics ⟨10, ⟨1/2, 0, 0, 0, 1/2, 0, 0, 0, 4/5⟩⟩
        ⟨⟨1, 2, 3⟩, ⟨4, 5, 6⟩, ⟨7, 8, 9⟩, ⟨1, 1, 1⟩, ⟨2, 2, 2⟩, ⟨3, 3, 3⟩, ⟨4, 4, 4⟩⟩
        ⟨1, 2, 3⟩ ⟨4, 5, 6⟩ =
      six_dof_dynamics ⟨10, ⟨1/2, 0, 0, 0, 1/2, 0, 0, 0, 4/5⟩⟩
        ⟨0, 0, ⟨7, 8, 9⟩, ⟨1, 1, 1⟩, ⟨2, 2, 2⟩, 0, 0⟩ ⟨1, 2, 3⟩ ⟨4, 5, 6⟩ :=
  ⟨rfl, evaluator_reads_only_vb_euler_pqr _ _ _ _ _ rfl rfl rfl⟩

/-- C4: for every state with zero body velocity and zero angular rate,
zero force and zero moment give a zero 21-component derivative for every
attitude, the diffrax dynamics closure likewise returns zero, and one
RK4 or Euler step returns the zeroed working state, leaving the 15
integrated components (`Ve`, `Xe`, `Vb`, `Euler`, `pqr`) unchanged. -/
theorem rest_equilibrium (dyn : SixDOFDynamics) (s : SixDOFState) (t : ℝ)
    (hVb : s.Vb = 0) (hpqr : s.pqr = 0) :
    six_dof_dynamics dyn.rigid_body s 0 0 = 0 ∧
    diffrax_dynamics dyn t s (0, 0) = 0 ∧
    rk4_step dyn s 0 0 = zero_last6 s ∧
    euler_step dyn s 0 0 = zero_last6 s ∧
    (zero_last6 s).Ve = s.Ve ∧ (zero_last6 s).Xe = s.Xe ∧
    (zero_last6 s).Vb = s.Vb ∧ (zero_last6 s).Euler = s.Euler ∧
    (zero_last6 s).pqr = s.pqr := by
  have hD : six_dof_dynamics dyn.rigid_body (zero_last6 s) 0 0 = 0 := by
    rw [six_dof_dynamics_zero_last6]
    exact rest_derivative_zero _ _ hVb hpqr
  have h1 : rk4_k1 dyn s 0 0 = 0 := by
    rw [rk4_k1, rk4_stage1_input, hD, state_smul_zero]
  have hs2 : rk4_stage2_input dyn s 0 0 = zero_last6 s := by
    rw [rk4_stage2_input, rk4_stage1_input, h1, state_zero_div, state_add_zero]
  have h2 : rk4_k2 dyn s 0 0 = 0 := by
    rw [rk4_k2, hs2, hD, state_smul_zero]
  have hs3 : rk4_stage3_input dyn s 0 0 = zero_last6 s := by
    rw [rk4_stage3_input, rk4_stage1_input, h2, state_zero_div, state_add_zero]
  have h3 : rk4_k3 dyn s 0 0 = 0 := by
    rw [rk4_k3, hs3, hD, state_smul_zero]
  have hs4 : rk4_stage4_input dyn s 0 0 = zero_last6 s := by
    rw [rk4_stage4_input, rk4_stage1_input, h3, state_add_zero]
  have h4 : rk4_k4 dyn s 0 0 = 0 := by
    rw [rk4_k4, hs4, hD, state_smul_zero]
  refine ⟨rest_derivative_zero _ _ hVb hpqr, ?_, ?_, ?_, rfl, rfl, rfl, rfl, rfl⟩
  · rw [diffrax_dynamics]
    exact hD
  · rw [rk4_step, rk4_stage1_input, h1, h2, h3, h4, state_smul_zero]
    simp [state_add_zero, state_zero_div]
  · rw [euler_step]
    simp only [hD, state_smul_zero, state_add_zero]

/-- Witness for C4 at a concrete resting state with a nonzero attitude,
nonzero inertial position and velocity, and nonzero scratch slots. -/
theorem rest_equilibrium_witness :
    (⟨⟨1, 2, 3⟩, ⟨4, 5, 6⟩, 0, ⟨7, 8, 9⟩, 0, ⟨1, 1, 1⟩, ⟨2, 2, 2⟩⟩ :
        SixDOFState).Vb = 0 ∧
    six_dof_dynamics (⟨⟨10, ⟨1/2, 0, 0, 0, 1/2, 0, 0, 0, 4/5⟩⟩, "RK4", 1/100⟩ :
          SixDOFDynamics).rigid_body
        ⟨⟨1, 2, 3⟩, ⟨4, 5, 6⟩, 0, ⟨7, 8, 9⟩, 0, ⟨1, 1, 1⟩, ⟨2, 2, 2⟩⟩ 0 0 = 0 ∧
    rk4_step ⟨⟨10, ⟨1/2, 0, 0, 0, 1/2, 0, 0, 0, 4/5⟩⟩, "RK4", 1/100⟩
        ⟨⟨1, 2, 3⟩, ⟨4, 5, 6⟩, 0, ⟨7, 8, 9⟩, 0, ⟨1, 1, 1⟩, ⟨2, 2, 2⟩⟩ 0 0 =
      zero_last6 ⟨⟨1, 2, 3⟩, ⟨4, 5, 6⟩, 0, ⟨7, 8, 9⟩, 0, ⟨1, 1, 1⟩, ⟨2, 2, 2⟩⟩ := by
  have h := rest_equilibrium ⟨⟨10, ⟨1/2, 0, 0, 0, 1/2, 0, 0, 0, 4/5⟩⟩, "RK4", 1/100⟩
    ⟨⟨1, 2, 3⟩, ⟨4, 5, 6⟩, 0, ⟨7, 8, 9⟩, 0, ⟨1, 1, 1⟩, ⟨2, 2, 2⟩⟩ 0 rfl rfl
  exact ⟨rfl, h.1, h.2.2.1⟩

/-- C5 counterexample: the guarded denominator of the yaw-rate formula is
NOT nonzero for every pitch angle.  At `theta = arccos(-1e-6)` (about
90.00006 degrees) the real-valued denominator `cos theta + 1e-6` is
exactly zero; the claim, as stated for every pitch angle, is false.  At
that attitude the embedded evaluator divides by zero (real-number
convention: the quotient is 0; in floating point it would be non-finite,
not a raised error). -/
theorem yaw_denominator_zero_cex :
    Real.cos ((⟨0, 0, 0, ⟨0, Real.arccos (-(1e-6)), 0⟩, ⟨0, 0, 1⟩, 0, 0⟩ :
        SixDOFState).Euler.y) + 1e-6 = 0 ∧
    (six_dof_dynamics ⟨1, ⟨1, 0, 0, 0, 1, 0, 0, 0, 1⟩⟩
        ⟨0, 0, 0, ⟨0, Real.arccos (-(1e-6)), 0⟩, ⟨0, 0, 1⟩, 0, 0⟩ 0 0).Euler.z = 0 := by
  have hc : Real.cos (Real.arccos (-(1e-6))) = -(1e-6) :=
    Real.cos_arccos (by norm_num) (by norm_num)
  constructor
  · show Real.cos (Real.arccos (-(1e-6))) + 1e-6 = 0
    rw [hc]; norm_num
  · show (_ : SixDOFState).Euler.z = 0
    simp [six_dof_dynamics, hc]

/-- C5 (amended): the evaluator computes the yaw rate as
`(q*sin(phi) + r*cos(phi)) / (cos(theta) + 1e-6)`, and the guarded
denominator is nonzero whenever `cos theta > -1e-6` — in particular for
every pitch angle with `|theta| <= pi/2` — but not for every pitch
angle: it vanishes where `cos theta = -1e-6`. -/
theorem yaw_rate_formula_and_guard :
    (∀ (rb : RigidBody) (s : SixDOFState) (F M : Vec3),
      (six_dof_dynamics rb s F M).Euler.z =
        (s.pqr.y * Real.sin s.Euler.x + s.pqr.z * Real.cos s.Euler.x) /
          (Real.cos s.Euler.y + 1e-6)) ∧
    (∀ theta : ℝ, -(1e-6) < Real.cos theta → Real.cos theta + 1e-6 ≠ 0) ∧
    (∀ theta : ℝ, |theta| ≤ Real.pi / 2 → Real.cos theta + 1e-6 ≠ 0) := by
  refine ⟨fun rb s F M => rfl, fun theta h => ?_, fun theta h => ?_⟩
  · have : (0 : ℝ) < Real.cos theta + 1e-6 := by
      have he : -(1e-6 : ℝ) + 1e-6 = 0 := by norm_num
      linarith
    exact ne_of_gt this
  · have hmem := abs_le.mp h
    have hc : 0 ≤ Real.cos theta :=
      Real.cos_nonneg_of_mem_Icc ⟨hmem.1, hmem.2⟩
    have : (0 : ℝ) < Real.cos theta + 1e-6 := by
      have : (0 : ℝ) < 1e-6 := by norm_num
      linarith
    exact ne_of_gt this

/-- Witness for C5 (amended) at the level pitch angle `theta = 0`. -/
theorem yaw_rate_formula_and_guard_witness :
    |(0 : ℝ)| ≤ Real.pi / 2 ∧ Real.cos 0 + 1e-6 ≠ 0 :=
  ⟨by rw [abs_zero]; exact le_of_lt (by positivity),
   yaw_rate_formula_and_guard.2.2 0
     (by rw [abs_zero]; exact le_of_lt (by positivity))⟩

/-- C1 counterexample: `rk4_step` does not return
`state + (k1 + 2*k2 + 2*k3 + k4)/6` for every 21-component state.  For a
state whose `ab` slot is nonzero (as the carried state is after any
nontrivial step, since the scan carries `new_state`), the step returns
the ZEROED working state plus the increment: at rest with zero force the
increment is zero, the claimed formula returns the state itself, but
`rk4_step` returns the state with its last 6 components zeroed. -/
theorem rk4_step_claim_formula_cex :
    rk4_step ⟨⟨1, ⟨1, 0, 0, 0, 1, 0, 0, 0, 1⟩⟩, "RK4", 1/100⟩
        ⟨0, 0, 0, 0, 0, ⟨1, 0, 0⟩, 0⟩ 0 0 ≠
      rk4_claim_formula ⟨⟨1, ⟨1, 0, 0, 0, 1, 0, 0, 0, 1⟩⟩, "RK4", 1/100⟩
        ⟨0, 0, 0, 0, 0, ⟨1, 0, 0⟩, 0⟩ 0 0 := by
  intro hEq
  have hL : (rk4_step ⟨⟨1, ⟨1, 0, 0, 0, 1, 0, 0, 0, 1⟩⟩, "RK4", 1/100⟩
      ⟨0, 0, 0, 0, 0, ⟨1, 0, 0⟩, 0⟩ 0 0).ab.x = 0 := by
    simp [rk4_step, rk4_k1, rk4_k2, rk4_k3, rk4_k4, rk4_stage1_input, rk4_stage2_input,
      rk4_stage3_input, rk4_stage4_input, zero_last6, six_dof_dynamics, euler_to_dcm,
      transpose3, mulVec3, cross3, inv3, det3]
  have hR : (rk4_claim_formula ⟨⟨1, ⟨1, 0, 0, 0, 1, 0, 0, 0, 1⟩⟩, "RK4", 1/100⟩
      ⟨0, 0, 0, 0, 0, ⟨1, 0, 0⟩, 0⟩ 0 0).ab.x = 1 := by
    simp [rk4_claim_formula, six_dof_dynamics, euler_to_dcm,
      transpose3, mulVec3, cross3, inv3, det3]
  rw [hEq, hR] at hL
  norm_num at hL

/-- C1 (amended): one RK4 step makes exactly four evaluator calls with
the classical stage structure and weights, computing
`k1 = h*derivative(state)`, `k2 = h*derivative(state + k1/2)`,
`k3 = h*derivative(state + k2/2)`, `k4 = h*derivative(state + k3)`, and
returns `zeroedState + (k1 + 2*k2 + 2*k3 + k4)/6`, where `zeroedState`
is the input state with its last 6 components set to zero (the four
stage values are unaffected by that zeroing because the evaluator never
reads the last 6 components). -/
theorem rk4_step_characterization (dyn : SixDOFDynamics) (s : SixDOFState)
    (F M : Vec3) :
    let h := dyn.fixed_step_size
    let D := fun x => six_dof_dynamics dyn.rigid_body x F M
    let k1 := h • D s
    let k2 := h • D (s + k1 / (2 : ℝ))
    let k3 := h • D (s + k2 / (2 : ℝ))
    let k4 := h • D (s + k3)
    rk4_step dyn s F M = zero_last6 s + (k1 + (2 : ℝ) • k2 + (2 : ℝ) • k3 + k4) / (6 : ℝ) := by
  intro h D k1 k2 k3 k4
  have e1 : rk4_k1 dyn s F M = k1 := by
    rw [rk4_k1, rk4_stage1_input, six_dof_dynamics_zero_last6]
  have e2 : rk4_k2 dyn s F M = k2 := by
    rw [rk4_k2, rk4_stage2_input, rk4_stage1_input, e1]
    congr 1
  have e3 : rk4_k3 dyn s F M = k3 := by
    rw [rk4_k3, rk4_stage3_input, rk4_stage1_input, e2]
    congr 1
  have e4 : rk4_k4 dyn s F M = k4 := by
    rw [rk4_k4, rk4_stage4_input, rk4_stage1_input, e3]
    congr 1
  rw [rk4_step, rk4_stage1_input, e1, e2, e3, e4]

/-- C2 counterexample: inside one RK4 step the last 6 components are NOT
zero at every sub-stage evaluation.  The reset happens once, at the top
of the step; with unit mass, identity inertia, force `[0,0,1]` and zero
initial state, the input of the second evaluator call carries
`ab = [0, 0, h/2] = [0, 0, 1/200] != 0`. -/
theorem rk4_stage2_nonzero_scratch :
    (rk4_stage2_input ⟨⟨1, ⟨1, 0, 0, 0, 1, 0, 0, 0, 1⟩⟩, "RK4", 1/100⟩
        0 ⟨0, 0, 1⟩ 0).ab.z ≠ 0 := by
  simp [rk4_stage2_input, rk4_stage1_input, rk4_k1, zero_last6, six_dof_dynamics,
    euler_to_dcm, transpose3, mulVec3, cross3, inv3, det3]

/-- C2 (amended): in every integrator strategy the last 6 components of
the working state are reset to zero once at the start of each step — so
the FIRST evaluator input of a step (and the single Euler input, and the
diffrax dynamics input) has zero `ab` and `dotpqr` — while the
intermediate RK4 stage inputs may carry nonzero last-6 components; this
is harmless because the evaluator output is invariant under zeroing
those components. -/
theorem reset_once_per_step :
    (∀ (dyn : SixDOFDynamics) (s : SixDOFState) (F M : Vec3),
      (rk4_stage1_input dyn s F M).ab = 0 ∧ (rk4_stage1_input dyn s F M).dotpqr = 0) ∧
    (∀ (dyn : SixDOFDynamics) (s : SixDOFState) (F M : Vec3),
      euler_step dyn s F M =
        zero_last6 s + dyn.fixed_step_size •
          six_dof_dynamics dyn.rigid_body (zero_last6 s) F M) ∧
    (∀ (dyn : SixDOFDynamics) (t : ℝ) (s : SixDOFState) (a : Vec3 × Vec3),
      diffrax_dynamics dyn t s a = six_dof_dynamics dyn.rigid_body (zero_last6 s) a.1 a.2) ∧
    (∀ (rb : RigidBody) (F M : Vec3) (s : SixDOFState),
      six_dof_dynamics rb (zero_last6 s) F M = six_dof_dynamics rb s F M) :=
  ⟨fun dyn s F M => ⟨rfl, rfl⟩, fun dyn s F M => rfl, fun dyn t s a => rfl,
   fun rb F M s => six_dof_dynamics_zero_last6 rb F M s⟩

/-- C9 counterexample: after a single step, the `ab` slot does NOT equal
the acceleration computed at the final sub-stage evaluation; it holds
the integrated increment (h times the acceleration for the Euler step).
With unit mass and force `[0,0,2]` from rest, the step's only sub-stage
computes the vertical acceleration 2, but the step's `ab` slot holds
`h*2 = 1/50`. -/
theorem euler_ab_slot_not_final_accel :
    (euler_step ⟨⟨1, ⟨1, 0, 0, 0, 1, 0, 0, 0, 1⟩⟩, "euler", 1/100⟩ 0 ⟨0, 0, 2⟩ 0).ab.z ≠
      (six_dof_dynamics ⟨1, ⟨1, 0, 0, 0, 1, 0, 0, 0, 1⟩⟩
        (zero_last6 (0 : SixDOFState)) ⟨0, 0, 2⟩ 0).ab.z := by
  simp [euler_step, zero_last6, six_dof_dynamics, euler_to_dcm,
    transpose3, mulVec3, cross3, inv3, det3]

/-- C9 (amended): after any single RK4 or Euler step, the `ab` and
`dotpqr` slots hold the step's integrated acceleration increments
(h-weighted combinations of the sub-stage accelerations), computed from
a zeroed base — not an accumulation across steps: two input states that
differ only in their `ab` and `dotpqr` components produce identical step
outputs (in particular identical `ab` and `dotpqr` outputs). -/
theorem scratch_slots_independent (dyn : SixDOFDynamics) (F M : Vec3)
    (s t : SixDOFState) (h1 : s.Ve = t.Ve) (h2 : s.Xe = t.Xe)
    (h3 : s.Vb = t.Vb) (h4 : s.Euler = t.Euler) (h5 : s.pqr = t.pqr) :
    rk4_step dyn s F M = rk4_step dyn t F M ∧
    euler_step dyn s F M = euler_step dyn t F M := by
  have hz : zero_last6 s = zero_last6 t := by
    ext <;> simp [h1, h2, h3, h4, h5]
  have e1 : rk4_k1 dyn s F M = rk4_k1 dyn t F M := by
    rw [rk4_k1, rk4_k1, rk4_stage1_input, rk4_stage1_input, hz]
  have e2 : rk4_k2 dyn s F M = rk4_k2 dyn t F M := by
    rw [rk4_k2, rk4_k2, rk4_stage2_input, rk4_stage2_input,
      rk4_stage1_input, rk4_stage1_input, hz, e1]
  have e3 : rk4_k3 dyn s F M = rk4_k3 dyn t F M := by
    rw [rk4_k3, rk4_k3, rk4_stage3_input, rk4_stage3_input,
      rk4_stage1_input, rk4_stage1_input, hz, e2]
  have e4 : rk4_k4 dyn s F M = rk4_k4 dyn t F M := by
    rw [rk4_k4, rk4_k4, rk4_stage4_input, rk4_stage4_input,
      rk4_stage1_input, rk4_stage1_input, hz, e3]
  constructor
  · rw [rk4_step, rk4_step, rk4_stage1_input, rk4_stage1_input, hz, e1, e2, e3, e4]
  · rw [euler_step, euler_step, hz]

/-- Witness for C9 (amended): two concrete states differing only in the
`ab` and `dotpqr` slots give the same RK4 and Euler step results. -/
theorem scratch_slots_independent_witness :
    (⟨0, 0, 0, 0, 0, ⟨1, 2, 3⟩, ⟨4, 5, 6⟩⟩ : SixDOFState).Ve = (0 : SixDOFState).Ve ∧
    rk4_step ⟨⟨10, ⟨1/2, 0, 0, 0, 1/2, 0, 0, 0, 4/5⟩⟩, "RK4", 1/100⟩
        ⟨0, 0, 0, 0, 0, ⟨1, 2, 3⟩, ⟨4, 5, 6⟩⟩ ⟨0, 0, -(981/10)⟩ 0 =
      rk4_step ⟨⟨10, ⟨1/2, 0, 0, 0, 1/2, 0, 0, 0, 4/5⟩⟩, "RK4", 1/100⟩
        0 ⟨0, 0, -(981/10)⟩ 0 ∧
    euler_step ⟨⟨10, ⟨1/2, 0, 0, 0, 1/2, 0, 0, 0, 4/5⟩⟩, "RK4", 1/100⟩
        ⟨0, 0, 0, 0, 0, ⟨1, 2, 3⟩, ⟨4, 5, 6⟩⟩ ⟨0, 0, -(981/10)⟩ 0 =
      euler_step ⟨⟨10, ⟨1/2, 0, 0, 0, 1/2, 0, 0, 0, 4/5⟩⟩, "RK4", 1/100⟩
        0 ⟨0, 0, -(981/10)⟩ 0 := by
  have h := scratch_slots_independent
    ⟨⟨10, ⟨1/2, 0, 0, 0, 1/2, 0, 0, 0, 4/5⟩⟩, "RK4", 1/100⟩ ⟨0, 0, -(981/10)⟩ 0
    ⟨0, 0, 0, 0, 0, ⟨1, 2, 3⟩, ⟨4, 5, 6⟩⟩ 0 rfl rfl rfl rfl rfl
  exact ⟨rfl, h.1, h.2⟩

/-- C8 counterexample: in the free-fall scenario (mass 10, inertia
diag(1/2, 1/2, 4/5), force `[0, 0, -98.1]`, zero moment, initial state
at rest and level), after one RK4 step of h = 1/100 the vertical
acceleration slot `ab.z` holds `-981/10000 = -0.0981` — the integrated
increment `h * (-9.81)` — which is NOT within 1e-3 of the claimed
`-9.81`. -/
theorem free_fall_ab_slot_cex :
    (rk4_step ⟨⟨10, ⟨1/2, 0, 0, 0, 1/2, 0, 0, 0, 4/5⟩⟩, "RK4", 1/100⟩
        0 ⟨0, 0, -(981/10)⟩ 0).ab.z = -(981/10000) ∧
    ¬ |(rk4_step ⟨⟨10, ⟨1/2, 0, 0, 0, 1/2, 0, 0, 0, 4/5⟩⟩, "RK4", 1/100⟩
        0 ⟨0, 0, -(981/10)⟩ 0).ab.z - (-(981/100))| < 1/1000 := by
  have hab : (rk4_step ⟨⟨10, ⟨1/2, 0, 0, 0, 1/2, 0, 0, 0, 4/5⟩⟩, "RK4", 1/100⟩
      0 ⟨0, 0, -(981/10)⟩ 0).ab.z = -(981/10000) := by
    simp [rk4_step, rk4_k1, rk4_k2, rk4_k3, rk4_k4, rk4_stage1_input, rk4_stage2_input,
      rk4_stage3_input, rk4_stage4_input, zero_last6, six_dof_dynamics, euler_to_dcm,
      transpose3, mulVec3, cross3, inv3, det3]
    norm_num
  refine ⟨hab, ?_⟩
  rw [hab]
  rw [abs_sub_comm, abs_of_nonpos (by norm_num)]
  norm_num

/-- C8 (amended): in the free-fall scenario the EVALUATOR's vertical
body-acceleration output is exactly `-981/100 = -9.81`; after one RK4
step of h = 1/100 the body vertical velocity `w` holds
`-981/10000 = -0.0981` (within 1e-3, in fact exactly), and the `ab.z`
slot of the stepped state holds `h * (-9.81) = -0.0981`, not `-9.81`. -/
theorem free_fall_step_values :
    (six_dof_dynamics ⟨10, ⟨1/2, 0, 0, 0, 1/2, 0, 0, 0, 4/5⟩⟩
        (zero_last6 (0 : SixDOFState)) ⟨0, 0, -(981/10)⟩ 0).ab.z = -(981/100) ∧
    (rk4_step ⟨⟨10, ⟨1/2, 0, 0, 0, 1/2, 0, 0, 0, 4/5⟩⟩, "RK4", 1/100⟩
        0 ⟨0, 0, -(981/10)⟩ 0).Vb.z = -(981/10000) ∧
    |(rk4_step ⟨⟨10, ⟨1/2, 0, 0, 0, 1/2, 0, 0, 0, 4/5⟩⟩, "RK4", 1/100⟩
        0 ⟨0, 0, -(981/10)⟩ 0).Vb.z - (-(981/10000))| < 1/1000 ∧
    (rk4_step ⟨⟨10, ⟨1/2, 0, 0, 0, 1/2, 0, 0, 0, 4/5⟩⟩, "RK4", 1/100⟩
        0 ⟨0, 0, -(981/10)⟩ 0).ab.z = (1/100) * (-(981/100)) := by
  have hD : (six_dof_dynamics ⟨10, ⟨1/2, 0, 0, 0, 1/2, 0, 0, 0, 4/5⟩⟩
      (zero_last6 (0 : SixDOFState)) ⟨0, 0, -(981/10)⟩ 0).ab.z = -(981/100) := by
    simp [zero_last6, six_dof_dynamics, euler_to_dcm, transpose3, mulVec3, cross3, inv3, det3]
    norm_num
  have hw : (rk4_step ⟨⟨10, ⟨1/2, 0, 0, 0, 1/2, 0, 0, 0, 4/5⟩⟩, "RK4", 1/100⟩
      0 ⟨0, 0, -(981/10)⟩ 0).Vb.z = -(981/10000) := by
    simp [rk4_step, rk4_k1, rk4_k2, rk4_k3, rk4_k4, rk4_stage1_input, rk4_stage2_input,
      rk4_stage3_input, rk4_stage4_input, zero_last6, six_dof_dynamics, euler_to_dcm,
      transpose3, mulVec3, cross3, inv3, det3]
    norm_num
  have hab : (rk4_step ⟨⟨10, ⟨1/2, 0, 0, 0, 1/2, 0, 0, 0, 4/5⟩⟩, "RK4", 1/100⟩
      0 ⟨0, 0, -(981/10)⟩ 0).ab.z = -(981/10000) := by
    simp [rk4_step, rk4_k1, rk4_k2, rk4_k3, rk4_k4, rk4_stage1_input, rk4_stage2_input,
      rk4_stage3_input, rk4_stage4_input, zero_last6, six_dof_dynamics, euler_to_dcm,
      transpose3, mulVec3, cross3, inv3, det3]
    norm_num
  refine ⟨hD, hw, ?_, ?_⟩
  · rw [hw]; norm_num
  · rw [hab]; norm_num

/-- C6 counterexample: a non-invertible inertia tensor does NOT cause a
fatal error at construction time.  Construction with the (singular) zero
inertia matrix succeeds: `__init__` only stores its arguments and
performs no invertibility check. -/
theorem construction_singular_inertia_ok :
    SixDOFDynamics.init ⟨10, ⟨0, 0, 0, 0, 0, 0, 0, 0, 0⟩⟩ "RK4" (1/100) =
      Except.ok ⟨⟨10, ⟨0, 0, 0, 0, 0, 0, 0, 0, 0⟩⟩, "RK4", 1/100⟩ ∧
    det3 ⟨0, 0, 0, 0, 0, 0, 0, 0, 0⟩ = 0 :=
  ⟨rfl, by simp [det3]⟩

/-- C6 (amended): construction stores the inertia tensor without any
invertibility check and never fails, and the inverse of the inertia
tensor is computed inside every derivative evaluation — the angular-rate
derivative of each call is obtained by applying the inverse of the raw
stored inertia to `M - omega x (I omega)`. -/
theorem inertia_inverse_per_call :
    (∀ (rb : RigidBody) (m : String) (h : ℝ),
      SixDOFDynamics.init rb m h = Except.ok ⟨rb, m, h⟩) ∧
    (∀ (rb : RigidBody) (s : SixDOFState) (F M : Vec3),
      (six_dof_dynamics rb s F M).pqr =
        mulVec3 (inv3 rb.inertia) (M - cross3 s.pqr (mulVec3 rb.inertia s.pqr))) :=
  ⟨fun rb m h => rfl, fun rb s F M => rfl⟩

/-- C7 counterexample: an unknown integration method string, a negative
mass and a negative step size do NOT raise a fatal configuration error
at construction — `__init__` accepts all three simultaneously. -/
theorem construction_no_validation_cex :
    SixDOFDynamics.init ⟨-5, ⟨1, 0, 0, 0, 1, 0, 0, 0, 1⟩⟩ "midpoint" (-(1/100)) =
      Except.ok ⟨⟨-5, ⟨1, 0, 0, 0, 1, 0, 0, 0, 1⟩⟩, "midpoint", -(1/100)⟩ ∧
    (-5 : ℝ) < 0 ∧ (-(1/100) : ℝ) < 0 ∧
    py_lower "midpoint" ≠ "rk4" ∧ py_lower "midpoint" ≠ "euler" ∧
    py_lower "midpoint" ≠ "diffrax" :=
  ⟨rfl, by norm_num, by norm_num, by decide, by decide, by decide⟩

/-- Evaluate `num_points` when the step ratio is an exact integer. -/
theorem num_points_intCast (t0 t1 h : ℝ) (k : ℤ)
    (hk : (t1 - t0) / h = (k : ℝ)) : num_points t0 t1 h = k := by
  rw [num_points, hk, Int.ceil_intCast]

/-- C7 (amended): construction performs no validation and always
succeeds — any method string and non-positive masses and step sizes are
accepted.  Errors surface only when `run_simulation` is invoked: if the
computed sample count `ceil((t1 - t0)/h)` is negative (as happens for a
negative step size with `t1 > t0`), the `jnp.linspace` call at line 125
raises a `ValueError` before the method dispatch, for every method;
otherwise an unknown integration method leaves the local `states`
unassigned and the final `return` raises `UnboundLocalError`.
Non-positive mass is never checked anywhere. -/
theorem config_errors_surface_at_run :
    (∀ (rb : RigidBody) (m : String) (h : ℝ),
      SixDOFDynamics.init rb m h = Except.ok ⟨rb, m, h⟩) ∧
    (∀ (dsolve : ℝ → ℝ → ℝ → SixDOFState → Vec3 × Vec3 → List ℝ → List SixDOFState)
      (dyn : SixDOFDynamics) (s : SixDOFState) (F M : Vec3) (t0 t1 : ℝ),
      num_points t0 t1 dyn.fixed_step_size < 0 →
      run_simulation dsolve dyn s F M t0 t1 =
        Except.error "ValueError: Number of samples must be non-negative") ∧
    (∀ (dsolve : ℝ → ℝ → ℝ → SixDOFState → Vec3 × Vec3 → List ℝ → List SixDOFState)
      (dyn : SixDOFDynamics) (s : SixDOFState) (F M : Vec3) (t0 t1 : ℝ),
      0 ≤ num_points t0 t1 dyn.fixed_step_size →
      py_lower dyn.method ≠ "rk4" → py_lower dyn.method ≠ "euler" →
      py_lower dyn.method ≠ "diffrax" →
      run_simulation dsolve dyn s F M t0 t1 =
        Except.error "UnboundLocalError: local variable states referenced before assignment") := by
  refine ⟨fun rb m h => rfl, fun dsolve dyn s F M t0 t1 hneg => ?_,
    fun dsolve dyn s F M t0 t1 hnn h1 h2 h3 => ?_⟩
  · rw [run_simulation, if_pos hneg]
  · rw [run_simulation, if_neg (not_lt.mpr hnn)]
    simp only [if_neg h1, if_neg h2, if_neg h3]

/-- Witness for C7 (amended): with the unknown method "midpoint", a run
over `[0, 1]` with positive step 1/100 yields the unbound-variable
error, while a run over `[0, 1]` with negative step -(1/100) yields the
linspace ValueError before the dispatch. -/
theorem config_errors_surface_at_run_witness :
    py_lower ((⟨⟨1, ⟨1, 0, 0, 0, 1, 0, 0, 0, 1⟩⟩, "midpoint", 1/100⟩ :
        SixDOFDynamics).method) ≠ "rk4" ∧
    (0 : ℤ) ≤ num_points 0 1 (1/100 : ℝ) ∧
    num_points 0 1 (-(1/100) : ℝ) < 0 ∧
    run_simulation (fun _ _ _ _ _ _ => []) ⟨⟨1, ⟨1, 0, 0, 0, 1, 0, 0, 0, 1⟩⟩, "midpoint", 1/100⟩
        0 0 0 0 1 =
      Except.error "UnboundLocalError: local variable states referenced before assignment" ∧
    run_simulation (fun _ _ _ _ _ _ => []) ⟨⟨1, ⟨1, 0, 0, 0, 1, 0, 0, 0, 1⟩⟩, "midpoint", -(1/100)⟩
        0 0 0 0 1 =
      Except.error "ValueError: Number of samples must be non-negative" :=
  ⟨by decide,
   by rw [num_points_intCast 0 1 (1/100) 100 (by norm_num)]; norm_num,
   by rw [num_points_intCast 0 1 (-(1/100)) (-100) (by norm_num)]; norm_num,
   config_errors_surface_at_run.2.2 (fun _ _ _ _ _ _ => [])
     ⟨⟨1, ⟨1, 0, 0, 0, 1, 0, 0, 0, 1⟩⟩, "midpoint", 1/100⟩ 0 0 0 0 1
     (by rw [num_points_intCast 0 1 (1/100) 100 (by norm_num)]; norm_num)
     (by decide) (by decide) (by decide),
   config_errors_surface_at_run.2.1 (fun _ _ _ _ _ _ => [])
     ⟨⟨1, ⟨1, 0, 0, 0, 1, 0, 0, 0, 1⟩⟩, "midpoint", -(1/100)⟩ 0 0 0 0 1
     (by rw [num_points_intCast 0 1 (-(1/100)) (-100) (by norm_num)]; norm_num)⟩

/-- `lax.scan` with a step function returning `(new, new)` collects the
iterates `step^[1] s0, step^[2] s0, ..., step^[n] s0` in order. -/
theorem scan_steps_eq_map (step : SixDOFState → SixDOFState) (s0 : SixDOFState) :
    ∀ n : ℕ, scan_steps step s0 n = (List.range n).map (fun i => step^[i + 1] s0) := by
  suffices h : ∀ n : ℕ, ∀ s : SixDOFState,
      scan_steps step s n = (List.range n).map (fun i => step^[i + 1] s) from fun n => h n s0
  intro n
  induction n with
  | zero => intro s; rfl
  | succ m ih =>
    intro s
    rw [scan_steps, ih (step s), List.range_succ_eq_map]
    simp only [List.map_cons, List.map_map, Function.iterate_one]
    congr 1

/-- C3 (amended): for an RK4 run with `t1 > t0` and a positive step
size, `run_simulation` returns `numPoints = ceil((t1 - t0)/h)` (a
positive count) evenly spaced time points over `[t0, t1]`, and a states
sequence with exactly one entry per time-grid point whose i-th entry is
the state after `i + 1` fixed-size RK4 steps from the zero-padded
initial state — so the entry paired with `t0` is the state after ONE
step, not the initial state, and entries align with the time grid only
through their index. -/
theorem run_simulation_grid_and_states
    (dsolve : ℝ → ℝ → ℝ → SixDOFState → Vec3 × Vec3 → List ℝ → List SixDOFState)
    (dyn : SixDOFDynamics) (s0 : SixDOFState) (F M : Vec3) (t0 t1 : ℝ)
    (hm : py_lower dyn.method = "rk4") (hh : 0 < dyn.fixed_step_size) (ht : t0 < t1) :
    0 < (num_points t0 t1 dyn.fixed_step_size).toNat ∧
    run_simulation dsolve dyn s0 F M t0 t1 =
      Except.ok ⟨linspace t0 t1 (num_points t0 t1 dyn.fixed_step_size).toNat,
        (List.range (num_points t0 t1 dyn.fixed_step_size).toNat).map
          (fun i => (fun s => rk4_step dyn s F M)^[i + 1] (zero_last6 s0))⟩ ∧
    (linspace t0 t1 (num_points t0 t1 dyn.fixed_step_size).toNat).length =
      (num_points t0 t1 dyn.fixed_step_size).toNat := by
  have hc : 0 < num_points t0 t1 dyn.fixed_step_size :=
    Int.ceil_pos.mpr (div_pos (by linarith) hh)
  refine ⟨by omega, ?_, by rw [linspace, List.length_map, List.length_range]⟩
  rw [run_simulation, if_neg (not_lt.mpr hc.le)]
  simp only [hm, if_pos]
  rw [scan_steps_eq_map]
  rfl

/-- Witness for C3 (amended) at a concrete RK4 run over `[0, 1/50]` with
step 1/100 (two grid points, two collected states). -/
theorem run_simulation_grid_and_states_witness :
    py_lower ((⟨⟨1, ⟨1, 0, 0, 0, 1, 0, 0, 0, 1⟩⟩, "RK4", 1/100⟩ :
        SixDOFDynamics).method) = "rk4" ∧ (0 : ℝ) < 1/100 ∧ (0 : ℝ) < 1/50 ∧
    (0 < (num_points 0 (1/50) (1/100 : ℝ)).toNat ∧
     run_simulation (fun _ _ _ _ _ _ => []) ⟨⟨1, ⟨1, 0, 0, 0, 1, 0, 0, 0, 1⟩⟩, "RK4", 1/100⟩
         0 0 0 0 (1/50) =
       Except.ok ⟨linspace 0 (1/50) (num_points 0 (1/50) (1/100 : ℝ)).toNat,
         (List.range (num_points 0 (1/50) (1/100 : ℝ)).toNat).map
           (fun i => (fun s => rk4_step ⟨⟨1, ⟨1, 0, 0, 0, 1, 0, 0, 0, 1⟩⟩, "RK4", 1/100⟩ s 0 0)^[i + 1]
             (zero_last6 0))⟩ ∧
     (linspace 0 (1/50) (num_points 0 (1/50) (1/100 : ℝ)).toNat).length =
       (num_points 0 (1/50) (1/100 : ℝ)).toNat) :=
  ⟨by decide, by norm_num, by norm_num,
   run_simulation_grid_and_states (fun _ _ _ _ _ _ => [])
     ⟨⟨1, ⟨1, 0, 0, 0, 1, 0, 0, 0, 1⟩⟩, "RK4", 1/100⟩ 0 0 0 0 (1/50)
     (by decide) (by norm_num) (by norm_num)⟩

/-- C3 counterexample: the entry of the returned states sequence paired
with time `t0` is NOT the initial state.  For an Euler run over
`[0, 1/100]` with step 1/100 (a single grid point, `times = [0]`), the
single returned state is the state after one step from the zero initial
state with force `[0,0,1]` — a state with `w = 1/100`, different from
the initial state. -/
theorem run_simulation_first_state_cex :
    run_simulation (fun _ _ _ _ _ _ => []) ⟨⟨1, ⟨1, 0, 0, 0, 1, 0, 0, 0, 1⟩⟩, "euler", 1/100⟩
        0 ⟨0, 0, 1⟩ 0 0 (1/100) =
      Except.ok ⟨[0], [⟨⟨0, 0, 1/100⟩, 0, ⟨0, 0, 1/100⟩, 0, 0, ⟨0, 0, 1/100⟩, 0⟩]⟩ ∧
    (⟨⟨0, 0, 1/100⟩, 0, ⟨0, 0, 1/100⟩, 0, 0, ⟨0, 0, 1/100⟩, 0⟩ : SixDOFState) ≠
      (0 : SixDOFState) := by
  have hn : (num_points 0 (1/100) (1/100 : ℝ)).toNat = 1 := by
    rw [num_points]; norm_num
  have hts : linspace 0 (1/100) 1 = [0] := by
    rw [linspace]
    norm_num [List.range_succ]
  have hst : euler_step ⟨⟨1, ⟨1, 0, 0, 0, 1, 0, 0, 0, 1⟩⟩, "euler", 1/100⟩
      (zero_last6 0) ⟨0, 0, 1⟩ 0 =
      ⟨⟨0, 0, 1/100⟩, 0, ⟨0, 0, 1/100⟩, 0, 0, ⟨0, 0, 1/100⟩, 0⟩ := by
    ext <;>
      simp [euler_step, zero_last6, six_dof_dynamics, euler_to_dcm, transpose3,
        mulVec3, cross3, inv3, det3]
  have hnp : num_points 0 (1/100) (1/100 : ℝ) = 1 := by
    rw [num_points]; norm_num
  constructor
  · rw [run_simulation]
    simp only [hnp, Int.toNat_one]
    rw [if_neg (by decide), if_neg (by decide), if_pos (by decide)]
    rw [hts, scan_steps, scan_steps]
    exact congrArg (fun st : SixDOFState =>
      (Except.ok (⟨[0], [st]⟩ : SimResult) : Except String SimResult)) hst
  · intro hEq
    have hvz := congrArg (fun s : SixDOFState => s.Vb.z) hEq
    norm_num at hvz
